import Mathlib

/-!
Shallow embedding of the counters service of the dayssince backend
(src/counters/counters.service.ts) together with the Prisma data model
(prisma/schema.prisma).  Opaque string identifiers (uuid/cuid) are modeled
as natural numbers, timestamps as integers (epoch milliseconds), nullable
columns as `Option`, and thrown Nest exceptions as an explicit error type
returned in `Except`.  Each service method is translated into a pure
function threading the database state; the method's result is the pair of
the returned value (or error) and the database after the call, so that
"nothing was persisted" is expressed as the state component being
unchanged.  The store's unique constraint on `counters.slug` is checked at
every write, and a failing nested tag `connect` (foreign key) surfaces as
the generic internal error, mirroring the service's catch blocks.
-/

/-- Error taxonomy: one constructor per Nest exception class thrown by the
service.  `badRequest` is the ValidationFailure category
(`BadRequestException`), `internal` is `InternalServerErrorException`.
The carried string is the exception message, which Nest serializes into
the response body and is therefore observable by the caller. -/
inductive ServiceError where
  | notFound (msg : String)
  | forbidden (msg : String)
  | conflict (msg : String)
  | badRequest (msg : String)
  | internal (msg : String)
deriving DecidableEq, Repr

/-- Row of the `tags` table. -/
structure Tag where
  id : Nat
  name : String
  slug : String
deriving DecidableEq, Repr

/-- Row of the `counters` table.  `tags` is the set of tag ids associated
through the `counter_tags` join table (the join rows of this counter);
the service's response mapping flattens those join rows, so the stored
and returned representations coincide on the modeled fields. -/
structure Counter where
  id : Nat
  userId : Nat
  name : String
  description : Option String
  startDate : Int
  archivedAt : Option Int
  isPrivate : Bool
  viewCount : Nat
  createdAt : Int
  slug : String
  isChallenge : Bool
  challengeDurationDays : Option Int
  challengeAchievedAt : Option Int
  tags : List Nat
deriving DecidableEq, Repr

/-- The database state the service reads and writes. -/
structure DB where
  counters : List Counter
  tags : List Tag
deriving DecidableEq, Repr

/-- CreateCounterDto (src/counters/dto/create-counter.dto.ts).  Optional
fields are `Option`; `none` covers both an absent key and a JSON null.
`startDate` is an ISO date string in the source, validated by
IsDateString; it is modeled as the parsed timestamp. -/
structure CreateCounterDto where
  name : String
  description : Option String := none
  startDate : Int
  isPrivate : Option Bool := none
  tagIds : Option (List Nat) := none
  slug : Option String := none
  isChallenge : Option Bool := none
  challengeDurationDays : Option Int := none
deriving DecidableEq, Repr

/-- UpdateCounterDto = PartialType(CreateCounterDto): every field optional. -/
structure UpdateCounterDto where
  name : Option String := none
  description : Option String := none
  startDate : Option Int := none
  isPrivate : Option Bool := none
  tagIds : Option (List Nat) := none
  slug : Option String := none
  isChallenge : Option Bool := none
  challengeDurationDays : Option Int := none
deriving DecidableEq, Repr

/-! ### The slugify library call

`slugify(input, { lower: true, strict: true, remove: /[*+~.()'"!:@]/g,
replacement: '-' })` from the npm `slugify` package, modeled for ASCII
input: replacement characters become spaces, strict mode keeps only
alphanumerics and whitespace (which subsumes the `remove` list for
ASCII), the result is trimmed, whitespace runs are joined with the
replacement and the result is lowercased. -/

/-- A character the strict slugify mode keeps (ASCII alphanumerics and
the space produced from separators). -/
def slugKeep (c : Char) : Bool :=
  c.isAlphanum || c = ' '

/-- Split a character list into maximal nonempty words separated by
spaces (this performs both the trim and the collapse of space runs). -/
def slugWords : List Char → List Char → List (List Char)
  | [], acc => if acc.isEmpty then [] else [acc.reverse]
  | c :: rest, acc =>
    if c = ' ' then
      if acc.isEmpty then slugWords rest [] else acc.reverse :: slugWords rest []
    else slugWords rest (c :: acc)

/-- The slugify call with the service's options, for ASCII input. -/
def slugifyStr (s : String) : String :=
  let mapped := s.data.map (fun c => if c = '-' then ' ' else c)
  let kept := mapped.filter slugKeep
  let ws := slugWords kept []
  String.mk ((List.intercalate ['-'] ws).map Char.toLower)

/-- Last `n` characters of a string — `toString.slice(-4)` in the
fallback branch of the slug generator. -/
def lastChars (n : Nat) (s : String) : String :=
  String.mk (s.data.drop (s.data.length - n))

/-- `Date.now().toString().slice(-4)`. -/
def timeSuffix (nowMs : Nat) : String :=
  lastChars 4 (toString nowMs)

/-- The base slug computed at the top of `generateUniqueSlug`
(`slugify(inputText || 'untitled', …)`). -/
def slugBase (inputText : String) : String :=
  slugifyStr (if inputText = "" then "untitled" else inputText)

/-- The existence check of the generator loop: some counter (other than
`excludeId`, when given) already holds the candidate slug. -/
def slugTaken (counters : List Counter) (excludeId : Option Nat) (s : String) : Bool :=
  counters.any (fun c =>
    c.slug == s && (match excludeId with
      | some i => !(c.id == i)
      | none => true))

/-- The `while (attempts < maxAttempts)` loop of `generateUniqueSlug`,
with the remaining attempts as fuel; `none` means the bounded attempts
were exhausted. -/
def generateUniqueSlugAux (taken : String → Bool) (baseSlug : String) :
    Nat → String → Nat → Option String
  | 0, _, _ => none
  | fuel + 1, slug, suffix =>
    if taken slug then
      generateUniqueSlugAux taken baseSlug fuel (baseSlug ++ "-" ++ toString suffix) (suffix + 1)
    else some slug

/-- `generateUniqueSlug` (counters.service.ts lines 71-105): try the base
slug, then numeric suffixes from 2 for at most 10 existence checks, then
fall back to a time-derived suffix. -/
def generateUniqueSlug (counters : List Counter) (inputText : String)
    (excludeId : Option Nat) (nowMs : Nat) : String :=
  let baseSlug := slugBase inputText
  match generateUniqueSlugAux (slugTaken counters excludeId) baseSlug 10 baseSlug 2 with
  | some s => s
  | none => baseSlug ++ "-" ++ timeSuffix nowMs

/-! ### Exception messages (the exact template literals of the source) -/

def notFoundIdMsg (id : Nat) : String :=
  "Counter with ID " ++ toString id ++ " not found"

def forbiddenMsg : String :=
  "You do not have permission to modify this counter"

def challengeRequiredMsg : String :=
  "If this is a challenge, challengeDurationDays must be provided and be a positive number."

def slugTakenMsg (s : String) : String :=
  "Slug \"" ++ s ++ "\" is already taken. Please choose another."

def createConflictMsg : String :=
  "Failed to generate a unique URL slug, or the provided slug is already taken. Please try changing the name or slug slightly."

def createFailMsg : String :=
  "Could not create the counter."

def updSlugConflictMsg : String :=
  "Failed to generate a unique URL slug during update, or the provided slug is already taken. Please try changing the name or slug slightly."

def updateFailMsg : String :=
  "Could not update the counter."

def beforeStartMsg : String :=
  "Archive date cannot be before the counter start date."

def futureMsg : String :=
  "Archive date cannot be in the future."

def slugNotFoundMsg (s : String) : String :=
  "Counter with slug \"" ++ s ++ "\" not found"

def slugNotFoundPrivMsg (s : String) : String :=
  "Counter with slug \"" ++ s ++ "\" not found (private)."

/-- `findOneOrFail` (lines 55-69): load by id, not-found when missing,
forbidden when owned by someone else. -/
def findOneOrFail (db : DB) (id : Nat) (userId : Nat) : Except ServiceError Counter :=
  match db.counters.find? (fun c => c.id == id) with
  | none => .error (.notFound (notFoundIdMsg id))
  | some c =>
    if c.userId ≠ userId then .error (.forbidden forbiddenMsg)
    else .ok c

/-- The challenge-duration validation used by both create and update:
`=== undefined || === null || < 1` (both undefined and null are `none`). -/
def durationInvalid : Option Int → Bool
  | none => true
  | some d => decide (d < 1)

/-- `create` (lines 107-187).  `newId` is the uuid the store assigns,
`now` the current time (createdAt / Date.now()).  The final store write
enforces the unique slug constraint (→ conflict, the P2002 translation)
and the tag `connect` foreign keys (→ the generic internal error). -/
def create (db : DB) (dto : CreateCounterDto) (userId : Nat) (now : Int)
    (newId : Nat) : (Except ServiceError Counter) × DB :=
  let isPrivate := dto.isPrivate.getD false
  let isChallenge := dto.isChallenge.getD false
  if isChallenge && durationInvalid dto.challengeDurationDays then
    (.error (.badRequest challengeRequiredMsg), db)
  else
    let slugRes : Except ServiceError String :=
      match dto.slug with
      | some s =>
        if !isPrivate then
          if db.counters.any (fun c => c.slug == s) then
            .error (.conflict (slugTakenMsg s))
          else .ok s
        else .ok (generateUniqueSlug db.counters dto.name none now.toNat)
      | none => .ok (generateUniqueSlug db.counters dto.name none now.toNat)
    match slugRes with
    | .error e => (.error e, db)
    | .ok finalSlug =>
      let newCounter : Counter :=
        { id := newId
          userId := userId
          name := dto.name
          description := dto.description
          startDate := dto.startDate
          archivedAt := none
          isPrivate := isPrivate
          viewCount := 0
          createdAt := now
          slug := finalSlug
          isChallenge := isChallenge
          challengeDurationDays := if isChallenge then dto.challengeDurationDays else none
          challengeAchievedAt := none
          tags := dto.tagIds.getD [] }
      if db.counters.any (fun c => c.slug == finalSlug) then
        (.error (.conflict createConflictMsg), db)
      else if (dto.tagIds.getD []).all (fun t => db.tags.any (fun tg => tg.id == t)) then
        (.ok newCounter, { db with counters := db.counters ++ [newCounter] })
      else (.error (.internal createFailMsg), db)

/-- The effective challenge duration the update merges from the input and
the existing record (`challengeDurationDays !== undefined ? … : existing`). -/
def updEffDur (existing : Counter) (dto : UpdateCounterDto) : Option Int :=
  match dto.challengeDurationDays with
  | some d => some d
  | none => existing.challengeDurationDays

/-- Did the update supply a start date different from the stored one
(the ISO-string comparison of the source, on parsed timestamps)? -/
def startDateChanged (existing : Counter) (dto : UpdateCounterDto) : Bool :=
  match dto.startDate with
  | some t => decide (t ≠ existing.startDate)
  | none => false

/-- Did the update supply a challenge duration different from the stored
one (`challengeDurationDays !== undefined && !== existing`)? -/
def durChanged (existing : Counter) (dto : UpdateCounterDto) : Bool :=
  match dto.challengeDurationDays with
  | some d => decide (existing.challengeDurationDays ≠ some d)
  | none => false

/-- The slug part of `update` (lines 249-280): decide whether the slug
needs recomputation and resolve the final slug, including the conflict
pre-check for a caller-supplied slug on a public record. -/
def resolveUpdateSlug (db : DB) (existing : Counter) (dto : UpdateCounterDto)
    (id : Nat) (nowMs : Nat) : Except ServiceError String :=
  let effIsPrivate := dto.isPrivate.getD existing.isPrivate
  let slugNeedsUpdate :=
    (match dto.name with
      | some n => decide (n ≠ existing.name)
      | none => false)
    || (match dto.slug with
      | some s => decide (s ≠ existing.slug)
      | none => false)
    || (dto.isPrivate.isSome && !effIsPrivate && existing.isPrivate && dto.slug.isNone)
  if slugNeedsUpdate then
    match dto.slug with
    | some s =>
      if !effIsPrivate then
        if decide (s ≠ existing.slug) && db.counters.any (fun c => c.slug == s && !(c.id == id)) then
          .error (.conflict (slugTakenMsg s))
        else .ok s
      else
        .ok (match dto.name with
          | some n => generateUniqueSlug db.counters n (some id) nowMs
          | none => existing.slug)
    | none =>
      if !effIsPrivate then
        .ok (generateUniqueSlug db.counters (dto.name.getD existing.name) (some id) nowMs)
      else
        .ok (match dto.name with
          | some n => generateUniqueSlug db.counters n (some id) nowMs
          | none => existing.slug)
  else .ok existing.slug

/-- The record the `prisma.counter.update` data clause produces from the
existing row (lines 283-303): fields are overwritten only when present in
the input, the slug is always written, the challenge fields are written
from the effective values, and the tag associations are fully replaced
exactly when `tagIds` is present. -/
def applyUpdate (existing : Counter) (dto : UpdateCounterDto) (effC : Bool)
    (effDur : Option Int) (effAch : Option Int) (finalSlug : String) : Counter :=
  { existing with
    name := dto.name.getD existing.name
    description := match dto.description with
      | some d => some d
      | none => existing.description
    slug := finalSlug
    isPrivate := dto.isPrivate.getD existing.isPrivate
    startDate := dto.startDate.getD existing.startDate
    isChallenge := effC
    challengeDurationDays := effDur
    challengeAchievedAt := effAch
    tags := match dto.tagIds with
      | some l => l
      | none => existing.tags }

/-- `update` (lines 201-325). -/
def update (db : DB) (id : Nat) (dto : UpdateCounterDto) (userId : Nat)
    (now : Int) : (Except ServiceError Counter) × DB :=
  match findOneOrFail db id userId with
  | .error e => (.error e, db)
  | .ok existing =>
    let effC := dto.isChallenge.getD existing.isChallenge
    if effC && durationInvalid (updEffDur existing dto) then
      (.error (.badRequest challengeRequiredMsg), db)
    else
      let effDur := if effC then updEffDur existing dto else none
      let effAch :=
        if !effC then none
        else if startDateChanged existing dto || durChanged existing dto then none
        else existing.challengeAchievedAt
      match resolveUpdateSlug db existing dto id now.toNat with
      | .error e => (.error e, db)
      | .ok finalSlug =>
        let updated := applyUpdate existing dto effC effDur effAch finalSlug
        if db.counters.any (fun c => !(c.id == id) && c.slug == finalSlug) then
          (.error (.conflict updSlugConflictMsg), db)
        else if (match dto.tagIds with
            | some l => l.all (fun t => db.tags.any (fun tg => tg.id == t))
            | none => true) then
          (.ok updated,
           { db with counters := db.counters.map (fun c => if c.id == id then updated else c) })
        else (.error (.internal updateFailMsg), db)

/-- The `archiveDate?: Date` argument of `archive`: the call site may
omit it, pass an invalid `Date`, or pass a valid one. -/
inductive DateArg where
  | absent
  | invalid
  | valid (t : Int)
deriving DecidableEq, Repr

/-- `archiveDate instanceof Date && !isNaN(archiveDate.getTime()) ?
archiveDate : new Date()` — the date the archive operation resolves. -/
def resolvedArchiveDate (arg : DateArg) (now : Int) : Int :=
  match arg with
  | .valid t => t
  | _ => now

/-- `archive` (lines 327-356). -/
def archive (db : DB) (id : Nat) (userId : Nat) (arg : DateArg) (now : Int) :
    (Except ServiceError Counter) × DB :=
  match findOneOrFail db id userId with
  | .error e => (.error e, db)
  | .ok c =>
    if c.archivedAt.isSome then (.ok c, db)
    else
      let finalArchiveDate := resolvedArchiveDate arg now
      if c.startDate > finalArchiveDate then
        (.error (.badRequest beforeStartMsg), db)
      else if finalArchiveDate > now then
        (.error (.badRequest futureMsg), db)
      else
        let c' := { c with archivedAt := some finalArchiveDate }
        (.ok c', { db with counters := db.counters.map (fun x => if x.id == id then c' else x) })

/-- `unarchive` (lines 358-369). -/
def unarchive (db : DB) (id : Nat) (userId : Nat) :
    (Except ServiceError Counter) × DB :=
  match findOneOrFail db id userId with
  | .error e => (.error e, db)
  | .ok c =>
    if c.archivedAt.isNone then (.ok c, db)
    else
      let c' := { c with archivedAt := none }
      (.ok c', { db with counters := db.counters.map (fun x => if x.id == id then c' else x) })

/-- `remove` (lines 371-374). -/
def remove (db : DB) (id : Nat) (userId : Nat) :
    (Except ServiceError Unit) × DB :=
  match findOneOrFail db id userId with
  | .error e => (.error e, db)
  | .ok _ => (.ok (), { db with counters := db.counters.filter (fun c => !(c.id == id)) })

/-- `findOneOwned` (lines 402-404): delegates to `findOneOrFail`. -/
def findOneOwned (db : DB) (id : Nat) (userId : Nat) : Except ServiceError Counter :=
  findOneOrFail db id userId

/-- `findOneBySlugPublic` (lines 376-400): look up by slug, not-found
when missing, not-found (with a different message) when private, and a
best-effort view-count increment when the counter is active.  The
returned record is the one read before the increment. -/
def findOneBySlugPublic (db : DB) (slug : String) :
    (Except ServiceError Counter) × DB :=
  match db.counters.find? (fun c => c.slug == slug) with
  | none => (.error (.notFound (slugNotFoundMsg slug)), db)
  | some c =>
    if c.isPrivate then (.error (.notFound (slugNotFoundPrivMsg slug)), db)
    else
      let db' :=
        if c.archivedAt.isNone then
          { db with counters := db.counters.map (fun x =>
              if x.id == c.id then { x with viewCount := x.viewCount + 1 } else x) }
        else db
      (.ok c, db')

/-! ### The public listing (`findPublic`, lines 406-467) -/

/-- Does the character list `hay` start with `needle`? -/
def listStartsWith : List Char → List Char → Bool
  | [], _ => true
  | _ :: _, [] => false
  | a :: as, b :: bs => a == b && listStartsWith as bs

/-- Does `hay` contain `needle` as a contiguous run? -/
def listHasRun (needle : List Char) : List Char → Bool
  | [] => needle.isEmpty
  | c :: rest => listStartsWith needle (c :: rest) || listHasRun needle rest

/-- The store's case-insensitive `contains` filter
(`{ contains: search, mode: 'insensitive' }`), for ASCII. -/
def containsCI (hay needle : String) : Bool :=
  listHasRun (needle.data.map Char.toLower) (hay.data.map Char.toLower)

inductive SortBy where
  | startDate
  | createdAt
  | name
  | popularity
deriving DecidableEq, Repr

inductive SortOrder where
  | asc
  | desc
deriving DecidableEq, Repr

/-- The counter columns an `orderBy` clause of this service can name. -/
inductive SortField where
  | viewCount
  | startDate
  | name
  | createdAt
deriving DecidableEq, Repr

/-- The `orderBy` object built by the `switch (sortBy)` (lines 440-446),
as the ordered list of (column, direction) pairs handed to the store. -/
def counterOrderBy (sortBy : SortBy) (sortOrder : SortOrder) :
    List (SortField × SortOrder) :=
  match sortBy with
  | .popularity => [(.viewCount, sortOrder)]
  | .startDate => [(.startDate, sortOrder)]
  | .name => [(.name, sortOrder)]
  | .createdAt => [(.createdAt, sortOrder)]

/-- Equality of two rows on one sort column. -/
def fieldEqB : SortField → Counter → Counter → Bool
  | .viewCount, a, b => a.viewCount == b.viewCount
  | .startDate, a, b => a.startDate == b.startDate
  | .name, a, b => a.name == b.name
  | .createdAt, a, b => a.createdAt == b.createdAt

/-- Nonstrict comparison of two rows on one sort column in a direction. -/
def fieldLeB : SortField → SortOrder → Counter → Counter → Bool
  | .viewCount, .asc, a, b => decide (a.viewCount ≤ b.viewCount)
  | .viewCount, .desc, a, b => decide (b.viewCount ≤ a.viewCount)
  | .startDate, .asc, a, b => decide (a.startDate ≤ b.startDate)
  | .startDate, .desc, a, b => decide (b.startDate ≤ a.startDate)
  | .name, .asc, a, b => decide (a.name ≤ b.name)
  | .name, .desc, a, b => decide (b.name ≤ a.name)
  | .createdAt, .asc, a, b => decide (a.createdAt ≤ b.createdAt)
  | .createdAt, .desc, a, b => decide (b.createdAt ≤ a.createdAt)

/-- Lexicographic row comparison along an `orderBy` column list: the
store sorts by the first column, breaking its ties by the later ones
(and leaves the order of full ties unspecified). -/
def cmpByFields : List (SortField × SortOrder) → Counter → Counter → Bool
  | [], _, _ => true
  | (f, d) :: rest, a, b =>
    if fieldEqB f a b then cmpByFields rest a b else fieldLeB f d a b

structure FindPublicOptions where
  page : Option Nat := none
  limit : Option Nat := none
  sortBy : Option SortBy := none
  sortOrder : Option SortOrder := none
  search : Option String := none
  tagSlugs : Option (List String) := none
deriving DecidableEq, Repr

structure PaginatedCountersResult where
  items : List Counter
  totalItems : Nat
  totalPages : Nat
  currentPage : Nat
deriving DecidableEq, Repr

/-- The `where` clause of `findPublic` as a row predicate (lines 418-438):
public, active, the optional case-insensitive search over name and
description, and the optional some-tag-slug-matches filter.  A JS-falsy
empty search string or empty tag list adds no filter. -/
def counterMatches (db : DB) (search : Option String)
    (tagSlugs : Option (List String)) (c : Counter) : Bool :=
  !c.isPrivate && c.archivedAt.isNone
  && (match search with
    | some s =>
      if s = "" then true
      else containsCI c.name s
        || (match c.description with
          | some d => containsCI d s
          | none => false)
    | none => true)
  && (match tagSlugs with
    | some ts =>
      if ts.isEmpty then true
      else c.tags.any (fun tid => db.tags.any (fun tg => tg.id == tid && ts.contains tg.slug))
    | none => true)

/-- `findPublic` (lines 406-467).  The count and the page are taken from
the same snapshot (the `$transaction`), and the store's `orderBy` is a
stable sort by the requested column list. -/
def findPublic (db : DB) (opts : FindPublicOptions) : PaginatedCountersResult :=
  let page := opts.page.getD 1
  let limit := opts.limit.getD 12
  let sb := opts.sortBy.getD .createdAt
  let so := opts.sortOrder.getD .desc
  let matched := db.counters.filter (counterMatches db opts.search opts.tagSlugs)
  let sorted :=
    matched.insertionSort (fun a b => cmpByFields (counterOrderBy sb so) a b = true)
  let items := (sorted.drop ((page - 1) * limit)).take limit
  { items := items
    totalItems := matched.length
    totalPages := (matched.length + limit - 1) / limit
    currentPage := page }

deriving instance DecidableEq for Except

/-! ### Claim C1: slug derivation on create -/

/-- The candidate slugs the generator's bounded loop checks, in order:
the base slug, then the base slug with numeric suffixes 2 through 10 —
ten existence checks in all. -/
def slugCandidates (base : String) : List String :=
  base :: (List.range 9).map (fun k => base ++ "-" ++ toString (2 + k))

lemma gen_aux_eq (taken : String → Bool) (base : String) :
    ∀ (fuel : Nat) (slug : String) (suffix : Nat),
      generateUniqueSlugAux taken base (fuel + 1) slug suffix =
        (slug :: (List.range fuel).map (fun k => base ++ "-" ++ toString (suffix + k))).find?
          (fun s => !taken s) := by
  intro fuel
  induction fuel with
  | zero =>
    intro slug suffix
    cases h : taken slug <;> simp [generateUniqueSlugAux, List.find?, h]
  | succ n ih =>
    intro slug suffix
    cases h : taken slug
    · simp [generateUniqueSlugAux, List.find?, h]
    · have hmap : (List.range (n + 1)).map (fun k => base ++ "-" ++ toString (suffix + k)) =
          (base ++ "-" ++ toString suffix) ::
            (List.range n).map (fun k => base ++ "-" ++ toString (suffix + 1 + k)) := by
        rw [List.range_succ_eq_map, List.map_cons, List.map_map]
        simp only [Nat.add_zero, List.cons.injEq]
        refine ⟨trivial, ?_⟩
        apply List.map_congr_left
        intro k _
        have hk : suffix + (k + 1) = suffix + 1 + k := by omega
        simp [Function.comp, Nat.succ_eq_add_one, hk]
      rw [show n + 1 + 1 = (n + 1) + 1 from rfl]
      rw [generateUniqueSlugAux]
      simp only [h, if_true]
      rw [ih (base ++ "-" ++ toString suffix) (suffix + 1)]
      rw [hmap]
      simp [List.find?, h]

lemma generateUniqueSlug_eq (counters : List Counter) (inp : String)
    (excl : Option Nat) (nowMs : Nat) :
    generateUniqueSlug counters inp excl nowMs =
      match (slugCandidates (slugBase inp)).find? (fun s => !slugTaken counters excl s) with
      | some s => s
      | none => slugBase inp ++ "-" ++ timeSuffix nowMs := by
  unfold generateUniqueSlug
  dsimp only []
  rw [show (10 : Nat) = 9 + 1 from rfl, gen_aux_eq]
  rfl

lemma create_slug_gen (db : DB) (dto : CreateCounterDto) (uid : Nat) (now : Int)
    (newId : Nat) (c : Counter) (db2 : DB)
    (hgen : dto.slug = none ∨ dto.isPrivate = some true)
    (hsucc : create db dto uid now newId = (.ok c, db2)) :
    c.slug = generateUniqueSlug db.counters dto.name none now.toNat := by
  rcases hgen with hg | hg
  · simp only [create, hg] at hsucc
    split at hsucc
    · simp at hsucc
    · split at hsucc
      · simp at hsucc
      · split at hsucc
        · simp only [Prod.mk.injEq, Except.ok.injEq] at hsucc
          rw [← hsucc.1]
        · simp at hsucc
  · simp only [create, hg, Option.getD_some, Bool.not_true] at hsucc
    split at hsucc
    · simp at hsucc
    · split at hsucc
      · simp at hsucc
      · rename_i finalSlug heq
        have hfs : finalSlug = generateUniqueSlug db.counters dto.name none now.toNat := by
          rcases hdto : dto.slug with _ | s <;> rw [hdto] at heq <;> simp at heq <;>
            exact heq.symm
        split at hsucc
        · simp at hsucc
        · split at hsucc
          · simp only [Prod.mk.injEq, Except.ok.injEq] at hsucc
            rw [← hsucc.1]
            exact hfs
          · simp at hsucc

/-- Name of the concrete scenario counter of the spec. -/
def scenarioName : String := "My Daily Run"

def scenarioDto : CreateCounterDto := { name := scenarioName, startDate := 0 }

def scenarioDb0 : DB := { counters := [], tags := [] }

def scenarioC1 : Counter :=
  { id := 1, userId := 7, name := scenarioName, description := none, startDate := 0,
    archivedAt := none, isPrivate := false, viewCount := 0, createdAt := 1000,
    slug := "my-daily-run", isChallenge := false, challengeDurationDays := none,
    challengeAchievedAt := none, tags := [] }

def scenarioDb1 : DB := { counters := [scenarioC1], tags := [] }

def scenarioC2 : Counter :=
  { scenarioC1 with id := 2, createdAt := 2000, slug := "my-daily-run-2" }

/-- Claim C1: for every create input without a caller-supplied slug (and for
every private create) the returned counter's slug comes from
`generateUniqueSlug`, which lowercases and hyphen-joins the name into the
base slug and then returns the first free candidate among the base slug and
the numeric suffixes 2,…,10 (at most 10 existence checks), falling back to
a time-derived suffix when all are taken; creating "My Daily Run" yields
"my-daily-run" and a second identically named create yields
"my-daily-run-2". -/
theorem c1_auto_slug_generation :
    (∀ (counters : List Counter) (inp : String) (excl : Option Nat) (nowMs : Nat),
        generateUniqueSlug counters inp excl nowMs =
          match (slugCandidates (slugBase inp)).find? (fun s => !slugTaken counters excl s) with
          | some s => s
          | none => slugBase inp ++ "-" ++ timeSuffix nowMs)
    ∧ (∀ (db : DB) (dto : CreateCounterDto) (uid : Nat) (now : Int) (newId : Nat)
        (c : Counter) (db2 : DB),
        dto.slug = none ∨ dto.isPrivate = some true →
        create db dto uid now newId = (.ok c, db2) →
        c.slug = generateUniqueSlug db.counters dto.name none now.toNat)
    ∧ slugBase scenarioName = "my-daily-run"
    ∧ create scenarioDb0 scenarioDto 7 1000 1 = (.ok scenarioC1, scenarioDb1)
    ∧ create scenarioDb1 scenarioDto 7 2000 2 =
        (.ok scenarioC2, { counters := [scenarioC1, scenarioC2], tags := [] })
    ∧ scenarioC1.slug = "my-daily-run"
    ∧ scenarioC2.slug = "my-daily-run-2" :=
  ⟨generateUniqueSlug_eq, create_slug_gen, by decide, by decide, by decide, rfl, rfl⟩

/-- Witness for C1: the slug-generation clause applied to the concrete
scenario create. -/
theorem c1_auto_slug_generation_witness :
    scenarioC1.slug = generateUniqueSlug scenarioDb0.counters scenarioDto.name none (1000 : Int).toNat :=
  c1_auto_slug_generation.2.1 scenarioDb0 scenarioDto 7 1000 1 scenarioC1 scenarioDb1
    (Or.inl rfl) (by decide)

/-- Claim C4: a create with isChallenge true and challengeDurationDays
absent/null (`none`) or < 1 fails with the ValidationFailure
(BadRequestException) and leaves the store untouched — the error is
raised before any mutating storage call. -/
theorem c4_challenge_validation :
    ∀ (db : DB) (dto : CreateCounterDto) (uid : Nat) (now : Int) (newId : Nat),
      dto.isChallenge = some true →
      (dto.challengeDurationDays = none ∨ ∃ d, dto.challengeDurationDays = some d ∧ d < 1) →
      create db dto uid now newId = (.error (.badRequest challengeRequiredMsg), db) := by
  intro db dto uid now newId hch hdur
  have hbad : durationInvalid dto.challengeDurationDays = true := by
    rcases hdur with h | ⟨d, hd, hlt⟩
    · simp [durationInvalid, h]
    · simp [durationInvalid, hd, hlt]
  simp [create, hch, hbad]

/-- Claim C10: archiving an already-archived owned counter returns the
current record unchanged for every supplied archive-date argument —
including one before the start date or in the future — because the
already-archived check precedes the date resolution and validation. -/
theorem c10_already_archived :
    ∀ (db : DB) (id uid : Nat) (arg : DateArg) (now : Int) (c : Counter) (t : Int),
      db.counters.find? (fun x => x.id == id) = some c →
      c.userId = uid →
      c.archivedAt = some t →
      archive db id uid arg now = (.ok c, db) := by
  intro db id uid arg now c t hfind huid harch
  simp [archive, findOneOrFail, hfind, huid, harch]

/-- Claim C8: every owner-gated operation (update, archive, unarchive,
remove, findOneOwned) fails with NotFound when no counter has the id
(regardless of the caller, so a nonexistent id never yields Forbidden)
and with Forbidden when the counter exists but is owned by someone else;
in both cases the database is unchanged, so both checks precede any
mutation. -/
theorem c8_owner_gate :
    ∀ (db : DB) (id uid : Nat) (dto : UpdateCounterDto) (arg : DateArg) (now : Int),
      (db.counters.find? (fun x => x.id == id) = none →
        update db id dto uid now = (.error (.notFound (notFoundIdMsg id)), db)
        ∧ archive db id uid arg now = (.error (.notFound (notFoundIdMsg id)), db)
        ∧ unarchive db id uid = (.error (.notFound (notFoundIdMsg id)), db)
        ∧ remove db id uid = (.error (.notFound (notFoundIdMsg id)), db)
        ∧ findOneOwned db id uid = .error (.notFound (notFoundIdMsg id)))
      ∧ (∀ c : Counter, db.counters.find? (fun x => x.id == id) = some c → c.userId ≠ uid →
        update db id dto uid now = (.error (.forbidden forbiddenMsg), db)
        ∧ archive db id uid arg now = (.error (.forbidden forbiddenMsg), db)
        ∧ unarchive db id uid = (.error (.forbidden forbiddenMsg), db)
        ∧ remove db id uid = (.error (.forbidden forbiddenMsg), db)
        ∧ findOneOwned db id uid = .error (.forbidden forbiddenMsg)) := by
  intro db id uid dto arg now
  constructor
  · intro h
    refine ⟨?_, ?_, ?_, ?_, ?_⟩ <;>
      simp [update, archive, unarchive, remove, findOneOwned, findOneOrFail, h]
  · intro c hc hne
    refine ⟨?_, ?_, ?_, ?_, ?_⟩ <;>
      simp [update, archive, unarchive, remove, findOneOwned, findOneOrFail, hc, hne]

/-- Replacing the matching rows of a list by a still-matching row keeps
the first match at the replacement. -/
lemma find?_map_replace (l : List Counter) (p : Counter → Bool) (u : Counter)
    (hu : p u = true) (a : Counter) (ha : l.find? p = some a) :
    (l.map (fun x => if p x then u else x)).find? p = some u := by
  induction l with
  | nil => simp at ha
  | cons b t ih =>
    by_cases hb : p b = true
    · simp [List.find?, hb, hu]
    · have hb' : p b = false := by simpa using hb
      simp only [List.map_cons, if_neg hb]
      rw [List.find?] at ha ⊢
      simp only [hb'] at ha ⊢
      exact ih ha

/-- Claim C5: for an owned, not-yet-archived counter, archive resolves
the supplied date when valid and the current time when absent or
invalid; it fails with a ValidationFailure exactly when the resolved
date is earlier than the start date or later than now, and otherwise
stores the counter with archivedAt set to the resolved date. -/
theorem c5_archive_date_validation :
    ∀ (db : DB) (id uid : Nat) (arg : DateArg) (now : Int) (c : Counter),
      db.counters.find? (fun x => x.id == id) = some c →
      c.userId = uid →
      c.archivedAt = none →
      ((∀ t, resolvedArchiveDate (DateArg.valid t) now = t)
        ∧ resolvedArchiveDate DateArg.absent now = now
        ∧ resolvedArchiveDate DateArg.invalid now = now)
      ∧ ((∃ m, (archive db id uid arg now).1 = .error (.badRequest m)) ↔
          (resolvedArchiveDate arg now < c.startDate ∨ now < resolvedArchiveDate arg now))
      ∧ (¬ resolvedArchiveDate arg now < c.startDate →
         ¬ now < resolvedArchiveDate arg now →
          (archive db id uid arg now).1 =
            .ok ({ c with archivedAt := some (resolvedArchiveDate arg now) })
          ∧ ((archive db id uid arg now).2).counters.find? (fun x => x.id == id) =
              some ({ c with archivedAt := some (resolvedArchiveDate arg now) })) := by
  intro db id uid arg now c hfind huid harch
  refine ⟨⟨fun t => rfl, rfl, rfl⟩, ?_, ?_⟩
  · constructor
    · rintro ⟨m, hm⟩
      by_cases h1 : resolvedArchiveDate arg now < c.startDate
      · exact Or.inl h1
      · by_cases h2 : now < resolvedArchiveDate arg now
        · exact Or.inr h2
        · exfalso
          simp [archive, findOneOrFail, hfind, huid, harch, gt_iff_lt, h1, h2] at hm
    · intro h
      by_cases h1 : resolvedArchiveDate arg now < c.startDate
      · exact ⟨beforeStartMsg, by simp [archive, findOneOrFail, hfind, huid, harch, gt_iff_lt, h1]⟩
      · have h2 : now < resolvedArchiveDate arg now := by
          rcases h with h | h
          · exact absurd h h1
          · exact h
        exact ⟨futureMsg, by simp [archive, findOneOrFail, hfind, huid, harch, gt_iff_lt, h1, h2]⟩
  · intro h1 h2
    have hpc : (({ c with archivedAt := some (resolvedArchiveDate arg now) } : Counter).id == id) = true := by
      have := List.find?_some hfind
      simpa using this
    have hres : archive db id uid arg now =
        (.ok ({ c with archivedAt := some (resolvedArchiveDate arg now) }),
         { db with counters := db.counters.map (fun x =>
             if x.id == id then { c with archivedAt := some (resolvedArchiveDate arg now) } else x) }) := by
      simp [archive, findOneOrFail, hfind, huid, harch, gt_iff_lt, h1, h2]
    rw [hres]
    exact ⟨rfl, find?_map_replace _ _ _ hpc c hfind⟩

def c4Dto : CreateCounterDto := { name := scenarioName, startDate := 0, isChallenge := some true }

/-- Witness for C4. -/
theorem c4_challenge_validation_witness :
    create scenarioDb0 c4Dto 7 0 1 = (.error (.badRequest challengeRequiredMsg), scenarioDb0) :=
  c4_challenge_validation scenarioDb0 c4Dto 7 0 1 rfl (Or.inl rfl)

def archC : Counter := { scenarioC1 with id := 3, slug := "arch", archivedAt := some 50 }

def archDb : DB := { counters := [archC], tags := [] }

/-- Witness for C10: the supplied archive date is before the counter's
start date, yet the call is a successful no-op. -/
theorem c10_already_archived_witness :
    archive archDb 3 7 (DateArg.valid (-100)) 1000 = (.ok archC, archDb) :=
  c10_already_archived archDb 3 7 (DateArg.valid (-100)) 1000 archC 50 (by decide) rfl rfl

def emptyUpd : UpdateCounterDto := {}

/-- Witness for C8: a missing id yields NotFound, a foreign owner yields
Forbidden. -/
theorem c8_owner_gate_witness :
    update scenarioDb1 99 emptyUpd 7 0 = (.error (.notFound (notFoundIdMsg 99)), scenarioDb1)
    ∧ update scenarioDb1 1 emptyUpd 8 0 = (.error (.forbidden forbiddenMsg), scenarioDb1) :=
  ⟨((c8_owner_gate scenarioDb1 99 7 emptyUpd DateArg.absent 0).1 (by decide)).1,
   ((c8_owner_gate scenarioDb1 1 8 emptyUpd DateArg.absent 0).2 scenarioC1 (by decide) (by decide)).1⟩

/-- Witness for C5: a valid in-range date is stored as archivedAt. -/
theorem c5_archive_date_validation_witness :
    (archive scenarioDb1 1 7 (DateArg.valid 700) 1000).1 =
      .ok ({ scenarioC1 with archivedAt := some 700 }) :=
  (((c5_archive_date_validation scenarioDb1 1 7 (DateArg.valid 700) 1000 scenarioC1
      (by decide) rfl rfl).2.2) (by decide) (by decide)).1

def secretSlug : String := "secret"

def privC : Counter := { scenarioC1 with id := 4, slug := secretSlug, isPrivate := true }

def privDb : DB := { counters := [privC], tags := [] }

/-- Counterexample to C2 as stated: looking up a private counter and a
nonexistent counter under the same slug both yield NotFound, but the
error contents differ — the private case carries the message with
" (private)." appended — so the two failures are observably
distinguishable. -/
theorem c2_counterexample :
    (findOneBySlugPublic privDb secretSlug).1 =
      .error (.notFound (slugNotFoundPrivMsg secretSlug))
    ∧ (findOneBySlugPublic scenarioDb0 secretSlug).1 =
      .error (.notFound (slugNotFoundMsg secretSlug))
    ∧ (findOneBySlugPublic privDb secretSlug).1 ≠ (findOneBySlugPublic scenarioDb0 secretSlug).1 := by
  refine ⟨rfl, rfl, ?_⟩
  decide

/-- Claim C2 (amended): findOneBySlugPublic fails with the NotFound
category both when no counter has the slug and when the counter is
private, leaving the store untouched; the two failures share the error
category but carry different messages, so they are not observably
identical. -/
theorem c2_amended_private_lookup :
    (∀ (db : DB) (s : String),
        db.counters.find? (fun c => c.slug == s) = none →
        findOneBySlugPublic db s = (.error (.notFound (slugNotFoundMsg s)), db))
    ∧ (∀ (db : DB) (s : String) (c : Counter),
        db.counters.find? (fun c => c.slug == s) = some c →
        c.isPrivate = true →
        findOneBySlugPublic db s = (.error (.notFound (slugNotFoundPrivMsg s)), db))
    ∧ (∀ s, slugNotFoundMsg s ≠ slugNotFoundPrivMsg s) := by
  refine ⟨?_, ?_, ?_⟩
  · intro db s h
    simp [findOneBySlugPublic, h]
  · intro db s c h hp
    simp [findOneBySlugPublic, h, hp]
  · intro s heq
    have h := congrArg String.length heq
    simp only [slugNotFoundMsg, slugNotFoundPrivMsg, String.length_append] at h
    have e1 : ("\" not found" : String).length = 11 := by decide
    have e2 : ("\" not found (private)." : String).length = 22 := by decide
    omega

/-- A successful ownership check means the id lookup found that row. -/
lemma findOneOrFail_ok_find? (db : DB) (id uid : Nat) (ex : Counter)
    (h : findOneOrFail db id uid = .ok ex) :
    db.counters.find? (fun x => x.id == id) = some ex := by
  unfold findOneOrFail at h
  split at h
  · simp at h
  · rename_i c hc
    split at h
    · simp at h
    · simp only [Except.ok.injEq] at h
      rw [hc, h]

/-- Inversion of a successful update: the slug resolution succeeded, the
returned counter is the applied update of the existing row, and the new
state replaces that row. -/
lemma update_ok_inv (db : DB) (id uid : Nat) (dto : UpdateCounterDto) (now : Int)
    (existing c : Counter) (db2 : DB)
    (hex : findOneOrFail db id uid = .ok existing)
    (hsucc : update db id dto uid now = (.ok c, db2)) :
    ∃ finalSlug,
      resolveUpdateSlug db existing dto id now.toNat = .ok finalSlug
      ∧ c = applyUpdate existing dto (dto.isChallenge.getD existing.isChallenge)
            (if dto.isChallenge.getD existing.isChallenge then updEffDur existing dto else none)
            (if !(dto.isChallenge.getD existing.isChallenge) then none
             else if startDateChanged existing dto || durChanged existing dto then none
             else existing.challengeAchievedAt)
            finalSlug
      ∧ db2 = { db with counters := db.counters.map (fun x => if x.id == id then c else x) } := by
  simp only [update, hex] at hsucc
  split at hsucc
  · simp at hsucc
  · split at hsucc
    · simp at hsucc
    · rename_i finalSlug heq
      split at hsucc
      · simp at hsucc
      · split at hsucc
        · simp only [Prod.mk.injEq, Except.ok.injEq] at hsucc
          refine ⟨finalSlug, heq, hsucc.1.symm, ?_⟩
          rw [← hsucc.2, ← hsucc.1]
        · simp at hsucc

/-- The reset condition of the update (changed start date or changed
duration), as a proposition. -/
lemma changed_iff (existing : Counter) (dto : UpdateCounterDto) :
    (startDateChanged existing dto || durChanged existing dto) = true ↔
      ((∃ t, dto.startDate = some t ∧ t ≠ existing.startDate)
        ∨ (∃ d, dto.challengeDurationDays = some d ∧ existing.challengeDurationDays ≠ some d)) := by
  rw [Bool.or_eq_true]
  unfold startDateChanged durChanged
  rcases hs : dto.startDate with _ | t <;> rcases hd : dto.challengeDurationDays with _ | d <;>
    simp [hs, hd]

/-- Claim C9: a successful update with tagIds present (including the
empty array) leaves the counter with exactly the given tag
associations, and with tagIds absent leaves the associations untouched;
the stored row agrees with the returned one. -/
theorem c9_tag_replacement :
    ∀ (db : DB) (id uid : Nat) (dto : UpdateCounterDto) (now : Int)
      (existing c : Counter) (db2 : DB),
      findOneOrFail db id uid = .ok existing →
      update db id dto uid now = (.ok c, db2) →
      (∀ l, dto.tagIds = some l → c.tags = l)
      ∧ (dto.tagIds = none → c.tags = existing.tags)
      ∧ db2.counters.find? (fun x => x.id == id) = some c := by
  intro db id uid dto now existing c db2 hex hsucc
  obtain ⟨fs, hslug, hc, hdb⟩ := update_ok_inv db id uid dto now existing c db2 hex hsucc
  have hfind := findOneOrFail_ok_find? db id uid existing hex
  refine ⟨?_, ?_, ?_⟩
  · intro l hl
    rw [hc]
    simp [applyUpdate, hl]
  · intro hl
    rw [hc]
    simp [applyUpdate, hl]
  · have hpc : ((fun x : Counter => x.id == id) c) = true := by
      rw [hc]
      simpa [applyUpdate] using List.find?_some hfind
    rw [hdb]
    exact find?_map_replace _ _ _ hpc existing hfind

/-- Claim C3: after a successful update, if the effective isChallenge is
false both challenge fields are null; if it is true and the start date
or the duration actually changed, challengeAchievedAt is reset to null;
otherwise it is preserved — and it is never set to a fresh non-null
value. -/
theorem c3_challenge_fields_update :
    ∀ (db : DB) (id uid : Nat) (dto : UpdateCounterDto) (now : Int)
      (existing c : Counter) (db2 : DB),
      findOneOrFail db id uid = .ok existing →
      update db id dto uid now = (.ok c, db2) →
      (dto.isChallenge.getD existing.isChallenge = false →
        c.challengeDurationDays = none ∧ c.challengeAchievedAt = none)
      ∧ (dto.isChallenge.getD existing.isChallenge = true →
          ((∃ t, dto.startDate = some t ∧ t ≠ existing.startDate)
            ∨ (∃ d, dto.challengeDurationDays = some d ∧ existing.challengeDurationDays ≠ some d)) →
          c.challengeAchievedAt = none)
      ∧ (dto.isChallenge.getD existing.isChallenge = true →
          ¬((∃ t, dto.startDate = some t ∧ t ≠ existing.startDate)
            ∨ (∃ d, dto.challengeDurationDays = some d ∧ existing.challengeDurationDays ≠ some d)) →
          c.challengeAchievedAt = existing.challengeAchievedAt)
      ∧ (c.challengeAchievedAt = none ∨ c.challengeAchievedAt = existing.challengeAchievedAt) := by
  intro db id uid dto now existing c db2 hex hsucc
  obtain ⟨fs, hslug, hc, hdb⟩ := update_ok_inv db id uid dto now existing c db2 hex hsucc
  refine ⟨?_, ?_, ?_, ?_⟩
  · intro hC
    rw [hc]
    simp [applyUpdate, hC]
  · intro hC hchg
    have hb : (startDateChanged existing dto || durChanged existing dto) = true :=
      (changed_iff existing dto).mpr hchg
    rw [hc]
    simp [applyUpdate, hC, hb]
  · intro hC hnot
    have hb : (startDateChanged existing dto || durChanged existing dto) = false := by
      cases h : (startDateChanged existing dto || durChanged existing dto)
      · rfl
      · exact absurd ((changed_iff existing dto).mp h) hnot
    rw [hc]
    simp [applyUpdate, hC, hb]
  · rw [hc]
    simp only [applyUpdate]
    split_ifs <;> simp

/-- Witness for the amended C2 at a concrete private and a concrete
missing slug. -/
theorem c2_amended_private_lookup_witness :
    findOneBySlugPublic scenarioDb0 secretSlug =
      (.error (.notFound (slugNotFoundMsg secretSlug)), scenarioDb0)
    ∧ findOneBySlugPublic privDb secretSlug =
      (.error (.notFound (slugNotFoundPrivMsg secretSlug)), privDb) :=
  ⟨c2_amended_private_lookup.1 scenarioDb0 secretSlug (by decide),
   c2_amended_private_lookup.2.1 privDb secretSlug privC (by decide) rfl⟩

def tagC : Counter := { scenarioC1 with id := 6, slug := "tagc", tags := [5] }

def tagDb : DB := { counters := [tagC], tags := [] }

def c9Dto : UpdateCounterDto := { tagIds := some [] }

def c9Upd : Counter := { tagC with tags := [] }

def c9Db2 : DB := { counters := [c9Upd], tags := [] }

/-- Witness for C9: updating tagIds to the empty array removes all tag
associations. -/
theorem c9_tag_replacement_witness :
    c9Upd.tags = ([] : List Nat)
    ∧ c9Db2.counters.find? (fun x => x.id == 6) = some c9Upd :=
  ⟨(c9_tag_replacement tagDb 6 7 c9Dto 0 tagC c9Upd c9Db2 (by decide) (by decide)).1 [] rfl,
   (c9_tag_replacement tagDb 6 7 c9Dto 0 tagC c9Upd c9Db2 (by decide) (by decide)).2.2⟩

def chC : Counter :=
  { scenarioC1 with
    id := 8
    slug := "ch"
    isChallenge := true
    challengeDurationDays := some 30
    challengeAchievedAt := some 500 }

def chDb : DB := { counters := [chC], tags := [] }

def c3Dto : UpdateCounterDto := { challengeDurationDays := some 60 }

def c3Upd : Counter :=
  { chC with challengeDurationDays := some 60, challengeAchievedAt := none }

def c3Db2 : DB := { counters := [c3Upd], tags := [] }

/-- Witness for C3: changing the challenge duration of a challenge
counter resets challengeAchievedAt to null. -/
theorem c3_challenge_fields_update_witness :
    c3Upd.challengeAchievedAt = none :=
  (c3_challenge_fields_update chDb 8 7 c3Dto 0 chC c3Upd c3Db2 (by decide) (by decide)).2.1
    rfl (Or.inr ⟨60, rfl, by decide⟩)

/-- `(n + l - 1) / l` is the ceiling of `n / l` for positive `l`: the
least number of pages of size `l` covering `n` items. -/
lemma pages_le_spec (n l : Nat) (hl : 0 < l) :
    n ≤ ((n + l - 1) / l) * l ∧ ∀ m, n ≤ m * l → (n + l - 1) / l ≤ m := by
  rcases n with _ | n
  · have hz : (0 + l - 1) / l = 0 := by
      apply Nat.div_eq_of_lt
      omega
    constructor
    · exact Nat.zero_le _
    · intro m _
      rw [hz]
      exact Nat.zero_le m
  · have e : n + 1 + l - 1 = n + l := by omega
    rw [e, Nat.add_div_right _ hl]
    have h1 := Nat.div_add_mod n l
    have h2 := Nat.mod_lt n hl
    constructor
    · have hexp : (n / l + 1) * l = l * (n / l) + l := by ring
      rw [hexp]
      linarith
    · intro m hm
      have hlt : n < m * l := by linarith
      exact Nat.succ_le_of_lt ((Nat.div_lt_iff_lt_mul hl).mpr hlt)

/-- Claim C6: every item findPublic returns is public and active, and
satisfies the case-insensitive name-or-description search filter and the
at-least-one-matching-tag-slug filter whenever those were given; at most
`limit` items are returned, and totalPages is the ceiling of
totalItems / limit (the least page count covering totalItems). -/
theorem c6_public_filter :
    ∀ (db : DB) (opts : FindPublicOptions),
      (∀ c ∈ (findPublic db opts).items,
        c.isPrivate = false
        ∧ c.archivedAt = none
        ∧ (∀ s, opts.search = some s → s ≠ "" →
            (containsCI c.name s = true
              ∨ ∃ d, c.description = some d ∧ containsCI d s = true))
        ∧ (∀ ts, opts.tagSlugs = some ts → ts ≠ [] →
            ∃ tid ∈ c.tags, ∃ tg ∈ db.tags, tg.id = tid ∧ tg.slug ∈ ts))
      ∧ (findPublic db opts).items.length ≤ opts.limit.getD 12
      ∧ (0 < opts.limit.getD 12 →
          (findPublic db opts).totalItems ≤ (findPublic db opts).totalPages * opts.limit.getD 12
          ∧ ∀ m, (findPublic db opts).totalItems ≤ m * opts.limit.getD 12 →
              (findPublic db opts).totalPages ≤ m) := by
  intro db opts
  refine ⟨?_, ?_, ?_⟩
  · intro c hc
    simp only [findPublic] at hc
    have hdrop := List.take_subset _ _ hc
    have hsort := List.drop_subset _ _ hdrop
    have hmem : c ∈ db.counters.filter (counterMatches db opts.search opts.tagSlugs) :=
      (List.perm_insertionSort _ _).mem_iff.mp hsort
    have hp := (List.mem_filter.mp hmem).2
    simp only [counterMatches, Bool.and_eq_true] at hp
    obtain ⟨⟨⟨hp1, hp2⟩, hp3⟩, hp4⟩ := hp
    refine ⟨by simpa using hp1, by simpa using hp2, ?_, ?_⟩
    · intro s hs hne
      rw [hs] at hp3
      rcases hd : c.description with _ | d <;> rw [hd] at hp3 <;> simp [hne] at hp3
      · exact Or.inl hp3
      · rcases hp3 with h | h
        · exact Or.inl h
        · exact Or.inr ⟨d, rfl, h⟩
    · intro ts hts hne
      rw [hts] at hp4
      have hempty : ts.isEmpty = false := by
        cases ts
        · exact absurd rfl hne
        · rfl
      simp [hempty] at hp4
      obtain ⟨tid, htid, tg, htg, hcid, hcsl⟩ := hp4
      exact ⟨tid, htid, tg, htg, hcid, hcsl⟩
  · simp only [findPublic]
    exact List.length_take_le _ _
  · intro hl
    simp only [findPublic]
    exact pages_le_spec _ _ hl

/-- A one-column comparison list compares by exactly that column. -/
lemma cmp_single (f : SortField) (d : SortOrder) (a b : Counter) :
    cmpByFields [(f, d)] a b = fieldLeB f d a b := by
  simp only [cmpByFields]
  split
  · rename_i h
    cases f <;> cases d <;> simp [fieldEqB] at h <;> simp [fieldLeB, h]
  · rfl

/-- Column comparison is total. -/
lemma fieldLeB_total (f : SortField) (d : SortOrder) (a b : Counter) :
    fieldLeB f d a b = true ∨ fieldLeB f d b a = true := by
  cases f <;> cases d <;> simp [fieldLeB] <;> exact le_total _ _

/-- Column comparison is transitive. -/
lemma fieldLeB_trans (f : SortField) (d : SortOrder) (a b c : Counter)
    (h1 : fieldLeB f d a b = true) (h2 : fieldLeB f d b c = true) :
    fieldLeB f d a c = true := by
  cases f <;> cases d <;> simp [fieldLeB] at h1 h2 ⊢ <;>
    first
      | exact le_trans h1 h2
      | exact le_trans h2 h1

/-- The sort the store performs for any findPublic orderBy yields a list
sorted by that comparison. -/
lemma sorted_primary (sb : SortBy) (so : SortOrder) (l : List Counter) :
    List.Sorted (fun a b => cmpByFields (counterOrderBy sb so) a b = true)
      (l.insertionSort (fun a b => cmpByFields (counterOrderBy sb so) a b = true)) := by
  have hsingle : ∃ f, counterOrderBy sb so = [(f, so)] := by
    cases sb <;> exact ⟨_, rfl⟩
  obtain ⟨f, hf⟩ := hsingle
  haveI : IsTotal Counter (fun a b => cmpByFields (counterOrderBy sb so) a b = true) := by
    constructor
    intro a b
    rw [hf, cmp_single, cmp_single]
    exact fieldLeB_total f so a b
  haveI : IsTrans Counter (fun a b => cmpByFields (counterOrderBy sb so) a b = true) := by
    constructor
    intro a b c h1 h2
    rw [hf, cmp_single] at h1 h2 ⊢
    exact fieldLeB_trans f so a b c h1 h2
  exact List.sorted_insertionSort _ _

/-- Claim C7 (amended): findPublic hands the store an orderBy consisting
solely of the primary key — viewCount for popularity, otherwise the named
column — in the requested direction, and the returned page is sorted by
that single key; no secondary createdAt tie-break is requested, so the
order of rows tying on the primary key is unspecified. -/
theorem c7_amended_primary_order :
    (∀ so, counterOrderBy .popularity so = [(SortField.viewCount, so)])
    ∧ (∀ so, counterOrderBy .startDate so = [(SortField.startDate, so)])
    ∧ (∀ so, counterOrderBy .name so = [(SortField.name, so)])
    ∧ (∀ so, counterOrderBy .createdAt so = [(SortField.createdAt, so)])
    ∧ ∀ (db : DB) (opts : FindPublicOptions),
        List.Sorted
          (fun a b =>
            cmpByFields
              (counterOrderBy (opts.sortBy.getD .createdAt) (opts.sortOrder.getD .desc)) a b = true)
          (findPublic db opts).items := by
  refine ⟨fun so => rfl, fun so => rfl, fun so => rfl, fun so => rfl, ?_⟩
  intro db opts
  simp only [findPublic]
  exact (sorted_primary _ _ _).sublist
    ((List.take_sublist _ _).trans (List.drop_sublist _ _))

def popA : Counter :=
  { scenarioC1 with
    id := 11
    slug := "pa"
    viewCount := 5
    createdAt := 10 }

def popB : Counter :=
  { scenarioC1 with
    id := 12
    slug := "pb"
    viewCount := 5
    createdAt := 20 }

def popDb : DB := { counters := [popA, popB], tags := [] }

def popOpts : FindPublicOptions := { sortBy := some .popularity, sortOrder := some .desc }

/-- Counterexample to C7 as stated: two public rows tie on viewCount and
the popularity-sorted page returns them with createdAt ascending, not
descending — the code never asks the store to break ties by createdAt. -/
theorem c7_counterexample :
    (findPublic popDb popOpts).items = [popA, popB]
    ∧ popA.viewCount = popB.viewCount
    ∧ popA.createdAt < popB.createdAt := by
  decide

def c6Tag : Tag := { id := 5, name := "Health", slug := "health" }

def c6C : Counter := { scenarioC1 with id := 9, slug := "runc", tags := [5] }

def c6Db : DB := { counters := [c6C], tags := [c6Tag] }

def runStr : String := "run"

def c6Opts : FindPublicOptions :=
  { page := some 1, limit := some 5, search := some runStr, tagSlugs := some ["health"] }

/-- Witness for C6 at a concrete searched, tag-filtered listing. -/
theorem c6_public_filter_witness :
    c6C.isPrivate = false
    ∧ c6C.archivedAt = none
    ∧ (findPublic c6Db c6Opts).items.length ≤ 5
    ∧ (findPublic c6Db c6Opts).totalItems ≤ (findPublic c6Db c6Opts).totalPages * 5 :=
  ⟨((c6_public_filter c6Db c6Opts).1 c6C (by decide)).1,
   ((c6_public_filter c6Db c6Opts).1 c6C (by decide)).2.1,
   (c6_public_filter c6Db c6Opts).2.1,
   ((c6_public_filter c6Db c6Opts).2.2 (by decide)).1⟩
